import Mathlib

/-!
# Verification of the humid-temp-monitor firmware core

Shallow embedding of the firmware's sensor driver (`sensor_dht.c`), WiFi
connection manager (`app_wifi.c`), MQTT connection manager (`app_mqtt.c`) and
task orchestration layer (`system_task.c`), together with proofs about the
claims of the specification.

Modelling conventions:
* C `uint32_t` arithmetic is modelled on `ℕ` with explicit reduction
  modulo `2^32` (`U32_MOD`) exactly where the C code truncates or wraps.
* C `float` arithmetic on the decoded sensor values is idealised as exact
  rational arithmetic (`ℚ`); the decoded formulas `b0 + b1*0.1` only ever
  combine 8-bit integers with the constant `0.1`.
* The hardware/driver side (GPIO wire protocol, FreeRTOS queue internals,
  ESP event delivery) enters as explicit inputs: a `dht_wire` value stands
  for the observable outcome of one run of the single-wire protocol, event
  lists stand for the sequences of driver callbacks, and bounded queues are
  lists with a capacity.
-/

namespace HumidTemp

/-- Error codes of `app_common.h` (`app_err_t`). -/
inductive app_err_t where
  | APP_OK
  | APP_ERR_INVALID_PARAM
  | APP_ERR_TIMEOUT
  | APP_ERR_SENSOR_READ
  | APP_ERR_MQTT_PUBLISH
  | APP_ERR_WIFI_CONNECT
  | APP_ERR_MQTT_CONNECT
  | APP_ERR_NO_MEMORY
  | APP_ERR_INVALID_VALUE
  | APP_ERR_UNKNOWN
deriving DecidableEq, Repr

/-- `2^32`, the modulus of C `uint32_t` arithmetic. -/
def U32_MOD : ℕ := 4294967296

/-- C `uint32_t` subtraction `a - b` (wraps modulo `2^32`). -/
def u32_sub (a b : ℕ) : ℕ := (a % U32_MOD + U32_MOD - b % U32_MOD) % U32_MOD

/-- When no wrap-around occurs, `uint32_t` subtraction is plain subtraction. -/
theorem u32_sub_eq_sub (a b : ℕ) (hle : b ≤ a) (hb : b < U32_MOD)
    (hd : a - b < U32_MOD) : u32_sub (a % U32_MOD) b = a - b := by
  simp only [u32_sub, U32_MOD] at *
  omega

/-- `sensor_data_t` of `app_common.h`: one reading with timestamp, validity
flag and error code.  `float` fields idealised as `ℚ`. -/
structure sensor_data_t where
  temperature : ℚ
  humidity : ℚ
  timestamp_ms : ℕ
  is_valid : Bool
  last_error : app_err_t
deriving DecidableEq, Repr

/-- The zero-initialised `sensor_data_t` (static storage in C starts zeroed;
error code `0` is `APP_OK`). -/
def sensor_data_zero : sensor_data_t :=
  { temperature := 0, humidity := 0, timestamp_ms := 0,
    is_valid := false, last_error := .APP_OK }

/-- One 5-byte frame as produced by `dht_read_raw_data` (each byte is packed
from 8 wire bits, hence `< 256`; the theorems hold for arbitrary naturals). -/
structure dht_frame where
  b0 : ℕ
  b1 : ℕ
  b2 : ℕ
  b3 : ℕ
  b4 : ℕ
deriving DecidableEq, Repr

/-- Observable outcome of one run of the single-wire protocol
(`dht_read_raw_data`): either some phase timed out (`dht_wait_for_level`
returned `APP_ERR_TIMEOUT`, so `dht_read_raw_data` returns
`APP_ERR_SENSOR_READ`), or all 40 bits were decoded into a 5-byte frame. -/
inductive dht_wire where
  | timeout
  | frame (f : dht_frame)
deriving DecidableEq, Repr

/-- `dht_context_t` of `sensor_dht.c`: the driver's private state. -/
structure dht_context_t where
  pin : ℕ
  initialized : Bool
  last_read_ms : ℕ
  last_reading : sensor_data_t
deriving DecidableEq, Repr

/-- The zero-initialised global `g_dht_context` (`static ... = {0}`). -/
def g_dht_context_zero : dht_context_t :=
  { pin := 0, initialized := false, last_read_ms := 0,
    last_reading := sensor_data_zero }

/-- `dht_validate_data`: checksum byte must equal the 8-bit truncated sum of
the four data bytes (`(uint8_t)(data[0]+data[1]+data[2]+data[3])`). -/
def dht_validate_data (f : dht_frame) : Bool :=
  (f.b0 + f.b1 + f.b2 + f.b3) % 256 == f.b4

/-- `sensor_dht_init`: validates the pin, configures the GPIO and resets the
cached reading (the `timestamp_ms` field of the cache is not touched). -/
def sensor_dht_init (ctx : dht_context_t) (pin : ℕ) : app_err_t × dht_context_t :=
  if 39 < pin then (.APP_ERR_INVALID_PARAM, ctx)
  else if ctx.initialized then (.APP_OK, ctx)
  else
    (.APP_OK,
      { pin := pin
        initialized := true
        last_read_ms := 0
        last_reading :=
          { ctx.last_reading with
              is_valid := false
              last_error := .APP_OK
              temperature := 0
              humidity := 0 } })

/-- Result of one `sensor_dht_read` call: the returned error code, the
contents of the caller's `*sensor_data` buffer after the call, the new driver
state, and whether the wire protocol (`dht_read_raw_data`) was actually run. -/
structure dht_read_result where
  ret : app_err_t
  out : sensor_data_t
  ctx : dht_context_t
  protocol_ran : Bool
deriving DecidableEq, Repr

/-- `sensor_dht_read`.  `buf` is the prior contents of the caller's output
buffer (on failure the C code writes only `is_valid` and `last_error` into
it).  `t0_ms` is the millisecond clock when the throttle check runs
(truncated to `uint32_t` as in the C local `current_ms`), `t1_ms` the clock
when the success path stamps the reading (`uint64_t`, untruncated).  `wire`
is the outcome of the wire protocol, consulted only when the protocol runs. -/
def sensor_dht_read (ctx : dht_context_t) (buf : sensor_data_t)
    (t0_ms t1_ms : ℕ) (wire : dht_wire) : dht_read_result :=
  if ctx.initialized = false then
    ⟨.APP_ERR_UNKNOWN, buf, ctx, false⟩
  else
    let current_ms := t0_ms % U32_MOD
    if u32_sub current_ms ctx.last_read_ms < 1000 then
      ⟨.APP_OK, ctx.last_reading, ctx, false⟩
    else
      match wire with
      | .timeout =>
        ⟨.APP_ERR_SENSOR_READ,
         { buf with is_valid := false, last_error := .APP_ERR_SENSOR_READ },
         { ctx with last_reading :=
             { ctx.last_reading with last_error := .APP_ERR_SENSOR_READ } },
         true⟩
      | .frame f =>
        if dht_validate_data f then
          let out : sensor_data_t :=
            { humidity := (f.b0 : ℚ) + (f.b1 : ℚ) * (1 / 10)
              temperature := (f.b2 : ℚ) + (f.b3 : ℚ) * (1 / 10)
              timestamp_ms := t1_ms
              is_valid := true
              last_error := .APP_OK }
          ⟨.APP_OK, out,
           { ctx with last_read_ms := current_ms, last_reading := out },
           true⟩
        else
          ⟨.APP_ERR_SENSOR_READ,
           { buf with is_valid := false, last_error := .APP_ERR_SENSOR_READ },
           { ctx with last_reading :=
               { ctx.last_reading with last_error := .APP_ERR_SENSOR_READ } },
           true⟩

/-- `sensor_dht_get_last_reading`: copy the cached reading out (the caller's
buffer is untouched when the driver is not initialised). -/
def sensor_dht_get_last_reading (ctx : dht_context_t) (buf : sensor_data_t) :
    app_err_t × sensor_data_t :=
  if ctx.initialized = false then (.APP_ERR_UNKNOWN, buf)
  else (.APP_OK, ctx.last_reading)

/-- `sensor_dht_is_healthy`: initialised, cached reading valid, and the
`uint32_t` age `current_ms - last_read_ms` below 30 000 ms. -/
def sensor_dht_is_healthy (ctx : dht_context_t) (now_ms : ℕ) : Bool :=
  ctx.initialized &&
    (ctx.last_reading.is_valid &&
      decide (u32_sub (now_ms % U32_MOD) ctx.last_read_ms < 30000))

/-- Abstraction of the driver state: the time of the last successful decode
(`none` when no decode has succeeded since `sensor_dht_init`).  Failed reads
touch neither `is_valid` nor `last_read_ms` of the context, successful reads
set both, so this view tracks exactly the successful decodes. -/
def dht_success_view (ctx : dht_context_t) : Option ℕ :=
  if ctx.last_reading.is_valid then some ctx.last_read_ms else none

/-- `u32_sub` of two truncated clocks is plain subtraction when the elapsed
time has not wrapped. -/
theorem u32_sub_mod_mod (a b : ℕ) (hle : a ≤ b) (hd : b - a < U32_MOD) :
    u32_sub (b % U32_MOD) (a % U32_MOD) = b - a := by
  simp only [u32_sub, U32_MOD] at *
  omega

/-- The driver state after a successful protocol read: the cache holds the
decoded reading and `last_read_ms` holds the (truncated) call time. -/
theorem sensor_dht_read_success_state (ctx : dht_context_t)
    (buf : sensor_data_t) (t0 t1 : ℕ) (wire : dht_wire)
    (hret : (sensor_dht_read ctx buf t0 t1 wire).ret = .APP_OK)
    (hran : (sensor_dht_read ctx buf t0 t1 wire).protocol_ran = true) :
    ctx.initialized = true ∧
    (sensor_dht_read ctx buf t0 t1 wire).ctx =
      { ctx with
          last_read_ms := t0 % U32_MOD
          last_reading := (sensor_dht_read ctx buf t0 t1 wire).out } ∧
    (sensor_dht_read ctx buf t0 t1 wire).out.is_valid = true := by
  cases hinit : ctx.initialized with
  | false => simp [sensor_dht_read, hinit] at hran
  | true =>
    by_cases hthr : u32_sub (t0 % U32_MOD) ctx.last_read_ms < 1000
    · simp [sensor_dht_read, hinit, hthr] at hran
    · cases wire with
      | timeout => simp [sensor_dht_read, hinit, hthr] at hret
      | frame f =>
        by_cases hv : dht_validate_data f
        · refine ⟨rfl, ?_, ?_⟩ <;> simp [sensor_dht_read, hinit, hthr, hv]
        · simp [sensor_dht_read, hinit, hthr, hv] at hret

/-- C2: for every 5-byte frame delivered by the wire protocol (driver
initialised, throttle window elapsed), the decode succeeds — `APP_OK` and a
valid reading with humidity `b0 + b1·0.1` and temperature `b2 + b3·0.1` —
if and only if `b4 = (b0+b1+b2+b3) mod 256`; a frame violating that equality
makes `sensor_dht_read` return `APP_ERR_SENSOR_READ` and mark the output
reading invalid. -/
theorem sensor_checksum_decides_decode (ctx : dht_context_t)
    (buf : sensor_data_t) (t0 t1 : ℕ) (f : dht_frame)
    (hinit : ctx.initialized = true)
    (ht0 : t0 < U32_MOD)
    (hle : ctx.last_read_ms ≤ t0)
    (hthr : 1000 ≤ t0 - ctx.last_read_ms) :
    ((sensor_dht_read ctx buf t0 t1 (.frame f)).ret = .APP_OK ∧
        (sensor_dht_read ctx buf t0 t1 (.frame f)).out.is_valid = true ↔
      (f.b0 + f.b1 + f.b2 + f.b3) % 256 = f.b4) ∧
    ((f.b0 + f.b1 + f.b2 + f.b3) % 256 = f.b4 →
      (sensor_dht_read ctx buf t0 t1 (.frame f)).out.humidity
          = (f.b0 : ℚ) + (f.b1 : ℚ) * (1 / 10) ∧
      (sensor_dht_read ctx buf t0 t1 (.frame f)).out.temperature
          = (f.b2 : ℚ) + (f.b3 : ℚ) * (1 / 10)) ∧
    ((f.b0 + f.b1 + f.b2 + f.b3) % 256 ≠ f.b4 →
      (sensor_dht_read ctx buf t0 t1 (.frame f)).ret = .APP_ERR_SENSOR_READ ∧
      (sensor_dht_read ctx buf t0 t1 (.frame f)).out.is_valid = false) := by
  have hlast : ctx.last_read_ms < U32_MOD := lt_of_le_of_lt hle ht0
  have hsub : u32_sub (t0 % U32_MOD) ctx.last_read_ms = t0 - ctx.last_read_ms :=
    u32_sub_eq_sub t0 ctx.last_read_ms hle hlast (by omega)
  have hnthr : ¬ u32_sub (t0 % U32_MOD) ctx.last_read_ms < 1000 := by omega
  by_cases hc : (f.b0 + f.b1 + f.b2 + f.b3) % 256 = f.b4
  · have hv : dht_validate_data f = true := by
      simp [dht_validate_data, hc]
    simp [sensor_dht_read, hinit, hnthr, hv, hc]
  · have hv : dht_validate_data f = false := by
      simp [dht_validate_data, hc]
    simp [sensor_dht_read, hinit, hnthr, hv, hc]

/-- C2 witness: concrete all-zero frame (checksum holds) decodes at a fresh
initialised driver. -/
theorem sensor_checksum_decides_decode_witness :
    ((sensor_dht_read (sensor_dht_init g_dht_context_zero 4).2 sensor_data_zero
          1000 1001 (.frame ⟨0, 0, 0, 0, 0⟩)).ret = .APP_OK ∧
        (sensor_dht_read (sensor_dht_init g_dht_context_zero 4).2 sensor_data_zero
          1000 1001 (.frame ⟨0, 0, 0, 0, 0⟩)).out.is_valid = true ↔
      (0 + 0 + 0 + 0) % 256 = 0) ∧
    ((0 + 0 + 0 + 0) % 256 = 0 →
      (sensor_dht_read (sensor_dht_init g_dht_context_zero 4).2 sensor_data_zero
          1000 1001 (.frame ⟨0, 0, 0, 0, 0⟩)).out.humidity
          = ((0 : ℕ) : ℚ) + ((0 : ℕ) : ℚ) * (1 / 10) ∧
      (sensor_dht_read (sensor_dht_init g_dht_context_zero 4).2 sensor_data_zero
          1000 1001 (.frame ⟨0, 0, 0, 0, 0⟩)).out.temperature
          = ((0 : ℕ) : ℚ) + ((0 : ℕ) : ℚ) * (1 / 10)) ∧
    ((0 + 0 + 0 + 0) % 256 ≠ 0 →
      (sensor_dht_read (sensor_dht_init g_dht_context_zero 4).2 sensor_data_zero
          1000 1001 (.frame ⟨0, 0, 0, 0, 0⟩)).ret = .APP_ERR_SENSOR_READ ∧
      (sensor_dht_read (sensor_dht_init g_dht_context_zero 4).2 sensor_data_zero
          1000 1001 (.frame ⟨0, 0, 0, 0, 0⟩)).out.is_valid = false) :=
  sensor_checksum_decides_decode (sensor_dht_init g_dht_context_zero 4).2
    sensor_data_zero 1000 1001 ⟨0, 0, 0, 0, 0⟩
    (by decide) (by decide) (by decide) (by decide)

/-- C6: a `sensor_dht_read` call issued less than 1000 ms after a previous
successful (protocol-running) read does not re-run the wire protocol,
returns `APP_OK`, leaves the driver state untouched and copies out a reading
bit-identical to the cached one. -/
theorem sensor_read_within_throttle_returns_cache
    (ctx : dht_context_t) (buf : sensor_data_t) (ta tb : ℕ) (wire : dht_wire)
    (buf2 : sensor_data_t) (t0 t1 : ℕ) (wire2 : dht_wire)
    (hret : (sensor_dht_read ctx buf ta tb wire).ret = .APP_OK)
    (hran : (sensor_dht_read ctx buf ta tb wire).protocol_ran = true)
    (hmono : ta ≤ t0) (hfast : t0 - ta < 1000) :
    sensor_dht_read (sensor_dht_read ctx buf ta tb wire).ctx buf2 t0 t1 wire2
      = ⟨.APP_OK, (sensor_dht_read ctx buf ta tb wire).out,
         (sensor_dht_read ctx buf ta tb wire).ctx, false⟩ := by
  obtain ⟨hinit, hctx, -⟩ :=
    sensor_dht_read_success_state ctx buf ta tb wire hret hran
  rw [hctx]
  have hsub : u32_sub (t0 % U32_MOD) (ta % U32_MOD) = t0 - ta :=
    u32_sub_mod_mod ta t0 hmono (by simp [U32_MOD]; omega)
  simp [sensor_dht_read, hinit, hsub, hfast]

/-- C6 witness: a concrete second read 500 ms after a successful decode. -/
theorem sensor_read_within_throttle_returns_cache_witness :
    sensor_dht_read
        (sensor_dht_read (sensor_dht_init g_dht_context_zero 4).2
          sensor_data_zero 1000 1001 (.frame ⟨0, 0, 0, 0, 0⟩)).ctx
        sensor_data_zero 1500 1501 .timeout
      = ⟨.APP_OK,
         (sensor_dht_read (sensor_dht_init g_dht_context_zero 4).2
           sensor_data_zero 1000 1001 (.frame ⟨0, 0, 0, 0, 0⟩)).out,
         (sensor_dht_read (sensor_dht_init g_dht_context_zero 4).2
           sensor_data_zero 1000 1001 (.frame ⟨0, 0, 0, 0, 0⟩)).ctx,
         false⟩ :=
  sensor_read_within_throttle_returns_cache
    (sensor_dht_init g_dht_context_zero 4).2 sensor_data_zero 1000 1001
    (.frame ⟨0, 0, 0, 0, 0⟩) sensor_data_zero 1500 1501 .timeout
    (by decide) (by decide) (by decide) (by decide)

/-- A concrete reachable driver state: fresh initialisation on GPIO4
followed by one successful decode of the all-zero frame at t = 1000 ms. -/
def dht_demo_ctx : dht_context_t :=
  (sensor_dht_read (sensor_dht_init g_dht_context_zero 4).2 sensor_data_zero
    1000 1001 (.frame ⟨0, 0, 0, 0, 0⟩)).ctx

/-- C8 counterexample: a failing read does NOT leave the cached reading's
error code unchanged — after a checksum-failing read following a successful
one, the cache's `last_error` changes from `APP_OK` to
`APP_ERR_SENSOR_READ` (source: `g_dht_context.last_reading.last_error = ret`
on both failure paths of `sensor_dht_read`). -/
theorem sensor_cache_error_overwritten_on_failure :
    dht_demo_ctx.last_reading.last_error = .APP_OK ∧
    (sensor_dht_read dht_demo_ctx sensor_data_zero 2500 2501
        (.frame ⟨0, 0, 0, 0, 1⟩)).ctx.last_reading.last_error
      = .APP_ERR_SENSOR_READ ∧
    (app_err_t.APP_ERR_SENSOR_READ ≠ app_err_t.APP_OK) := by
  decide

/-- C8 (amended): every failing `sensor_dht_read` that ran the protocol
(timeout or checksum mismatch) retains the cached reading's temperature,
humidity, timestamp and validity flag, and `last_read_ms`, until a later
successful read; only the cache's `last_error` field is overwritten (with
`APP_ERR_SENSOR_READ`), the output buffer is marked invalid, and
`sensor_dht_get_last_reading` afterwards returns exactly that cache. -/
theorem sensor_failed_read_retains_cache_except_error
    (ctx : dht_context_t) (buf buf2 : sensor_data_t) (t0 t1 : ℕ)
    (wire : dht_wire)
    (hran : (sensor_dht_read ctx buf t0 t1 wire).protocol_ran = true)
    (hfail : (sensor_dht_read ctx buf t0 t1 wire).ret ≠ .APP_OK) :
    (sensor_dht_read ctx buf t0 t1 wire).ret = .APP_ERR_SENSOR_READ ∧
    (sensor_dht_read ctx buf t0 t1 wire).ctx.last_reading.temperature
        = ctx.last_reading.temperature ∧
    (sensor_dht_read ctx buf t0 t1 wire).ctx.last_reading.humidity
        = ctx.last_reading.humidity ∧
    (sensor_dht_read ctx buf t0 t1 wire).ctx.last_reading.timestamp_ms
        = ctx.last_reading.timestamp_ms ∧
    (sensor_dht_read ctx buf t0 t1 wire).ctx.last_reading.is_valid
        = ctx.last_reading.is_valid ∧
    (sensor_dht_read ctx buf t0 t1 wire).ctx.last_reading.last_error
        = .APP_ERR_SENSOR_READ ∧
    (sensor_dht_read ctx buf t0 t1 wire).ctx.last_read_ms = ctx.last_read_ms ∧
    (sensor_dht_read ctx buf t0 t1 wire).out.is_valid = false ∧
    (sensor_dht_get_last_reading (sensor_dht_read ctx buf t0 t1 wire).ctx buf2).2
        = (sensor_dht_read ctx buf t0 t1 wire).ctx.last_reading := by
  cases hinit : ctx.initialized with
  | false => simp [sensor_dht_read, hinit] at hran
  | true =>
    by_cases hthr : u32_sub (t0 % U32_MOD) ctx.last_read_ms < 1000
    · simp [sensor_dht_read, hinit, hthr] at hran
    · cases wire with
      | timeout =>
        simp [sensor_dht_read, sensor_dht_get_last_reading, hinit, hthr]
      | frame f =>
        by_cases hv : dht_validate_data f
        · simp [sensor_dht_read, hinit, hthr, hv] at hfail
        · simp [sensor_dht_read, sensor_dht_get_last_reading, hinit, hthr, hv]

/-- C8 witness: concrete checksum-failing read after a successful one. -/
theorem sensor_failed_read_retains_cache_except_error_witness :
    (sensor_dht_read dht_demo_ctx sensor_data_zero 2500 2501
        (.frame ⟨0, 0, 0, 0, 1⟩)).ret = .APP_ERR_SENSOR_READ ∧
    (sensor_dht_read dht_demo_ctx sensor_data_zero 2500 2501
        (.frame ⟨0, 0, 0, 0, 1⟩)).ctx.last_reading.temperature
        = dht_demo_ctx.last_reading.temperature ∧
    (sensor_dht_read dht_demo_ctx sensor_data_zero 2500 2501
        (.frame ⟨0, 0, 0, 0, 1⟩)).ctx.last_reading.humidity
        = dht_demo_ctx.last_reading.humidity ∧
    (sensor_dht_read dht_demo_ctx sensor_data_zero 2500 2501
        (.frame ⟨0, 0, 0, 0, 1⟩)).ctx.last_reading.timestamp_ms
        = dht_demo_ctx.last_reading.timestamp_ms ∧
    (sensor_dht_read dht_demo_ctx sensor_data_zero 2500 2501
        (.frame ⟨0, 0, 0, 0, 1⟩)).ctx.last_reading.is_valid
        = dht_demo_ctx.last_reading.is_valid ∧
    (sensor_dht_read dht_demo_ctx sensor_data_zero 2500 2501
        (.frame ⟨0, 0, 0, 0, 1⟩)).ctx.last_reading.last_error
        = .APP_ERR_SENSOR_READ ∧
    (sensor_dht_read dht_demo_ctx sensor_data_zero 2500 2501
        (.frame ⟨0, 0, 0, 0, 1⟩)).ctx.last_read_ms = dht_demo_ctx.last_read_ms ∧
    (sensor_dht_read dht_demo_ctx sensor_data_zero 2500 2501
        (.frame ⟨0, 0, 0, 0, 1⟩)).out.is_valid = false ∧
    (sensor_dht_get_last_reading
        (sensor_dht_read dht_demo_ctx sensor_data_zero 2500 2501
          (.frame ⟨0, 0, 0, 0, 1⟩)).ctx sensor_data_zero).2
        = (sensor_dht_read dht_demo_ctx sensor_data_zero 2500 2501
            (.frame ⟨0, 0, 0, 0, 1⟩)).ctx.last_reading :=
  sensor_failed_read_retains_cache_except_error dht_demo_ctx
    sensor_data_zero sensor_data_zero 2500 2501 (.frame ⟨0, 0, 0, 0, 1⟩)
    (by decide) (by decide)

/-- C9 counterexample: the 30 000 ms health window is computed in `uint32_t`
milliseconds, so it wraps: 2^32 + 500 ms after the last successful decode
(with no new read) `sensor_dht_is_healthy` is `true` again although the
last decode is far older than 30 000 ms, refuting the claimed "iff". -/
theorem sensor_health_wraps_after_49_days :
    dht_success_view dht_demo_ctx = some 1000 ∧
    sensor_dht_is_healthy dht_demo_ctx (4294967296 + 1500) = true ∧
    30000 ≤ (4294967296 + 1500) - 1000 := by
  decide

/-- C9 (amended): for an initialised driver, `sensor_dht_is_healthy` at
monotonic time `now` is `true` iff a successful decode has happened (time
`t`) and `now - t < 30 000`, PROVIDED the elapsed time has not wrapped the
32-bit millisecond arithmetic (`now - t < 2^32`, about 49.7 days); with no
successful decode it is `false`.  Advancing past the 30 000 ms boundary
within that range flips the result to false. -/
theorem sensor_is_healthy_iff_recent_success_mod32
    (ctx : dht_context_t) (now t : ℕ)
    (hinit : ctx.initialized = true)
    (hle : t ≤ now) (hwrap : now - t < U32_MOD) (ht : t < U32_MOD) :
    (dht_success_view ctx = some t →
      (sensor_dht_is_healthy ctx now = true ↔ now - t < 30000)) ∧
    (dht_success_view ctx = none → sensor_dht_is_healthy ctx now = false) := by
  constructor
  · intro hview
    have hvalid : ctx.last_reading.is_valid = true := by
      by_contra h
      simp [dht_success_view, h] at hview
    have hlast : ctx.last_read_ms = t := by
      simp [dht_success_view, hvalid] at hview
      exact hview
    have hsub : u32_sub (now % U32_MOD) ctx.last_read_ms = now - t := by
      rw [hlast]
      exact u32_sub_eq_sub now t hle ht hwrap
    simp [sensor_dht_is_healthy, hinit, hvalid, hsub]
  · intro hview
    have hvalid : ctx.last_reading.is_valid = false := by
      simpa [dht_success_view] using hview
    simp [sensor_dht_is_healthy, hvalid]

/-- C9 witness: concrete driver state 500 ms after its successful decode. -/
theorem sensor_is_healthy_iff_recent_success_mod32_witness :
    sensor_dht_is_healthy dht_demo_ctx 1500 = true ↔ 1500 - 1000 < 30000 :=
  (sensor_is_healthy_iff_recent_success_mod32 dht_demo_ctx 1500 1000
    (by decide) (by decide) (by decide) (by decide)).1 (by decide)

/-- C10: reachable state in which the public interface reports success
together with an invalid reading — after `sensor_dht_init` (which zeroes
`last_read_ms`) a `sensor_dht_read` issued before 1000 ms of uptime hits the
throttle, returns `APP_OK`, and copies out the zero-initialised cache with
`is_valid = false`, without running the protocol. -/
theorem sensor_read_success_with_invalid_reading_after_init :
    (sensor_dht_read (sensor_dht_init g_dht_context_zero 4).2 sensor_data_zero
        500 500 .timeout).ret = .APP_OK ∧
    (sensor_dht_read (sensor_dht_init g_dht_context_zero 4).2 sensor_data_zero
        500 500 .timeout).out.is_valid = false ∧
    (sensor_dht_read (sensor_dht_init g_dht_context_zero 4).2 sensor_data_zero
        500 500 .timeout).out = sensor_data_zero ∧
    (sensor_dht_read (sensor_dht_init g_dht_context_zero 4).2 sensor_data_zero
        500 500 .timeout).protocol_ran = false := by
  decide

/-! ## WiFi connection manager (`app_wifi.c`) -/

/-- `wifi_state_t` of `app_wifi.c`. -/
inductive wifi_state_t where
  | WIFI_STATE_INIT
  | WIFI_STATE_STARTING
  | WIFI_STATE_CONNECTING
  | WIFI_STATE_CONNECTED
  | WIFI_STATE_DISCONNECTED
  | WIFI_STATE_FAILED
  | WIFI_STATE_ERROR
deriving DecidableEq, Repr

/-- `WIFI_RETRY_MIN_MS`. -/
def WIFI_RETRY_MIN_MS : ℕ := 1000

/-- `WIFI_RETRY_MAX_MS`. -/
def WIFI_RETRY_MAX_MS : ℕ := 60000

/-- `WIFI_MAX_RETRIES` (default retry budget when the config passes 0). -/
def WIFI_MAX_RETRIES : ℕ := 15

/-- The mutable fields of `wifi_context_t` touched by the event handler
(`uint32_t` counters modelled on `ℕ`; no claim depends on counter wrap). -/
structure wifi_context_t where
  state : wifi_state_t
  connected : Bool
  retry_count : ℕ
  retry_delay_ms : ℕ
  max_retries : ℕ
  last_connected_time_ms : ℕ
  total_connections : ℕ
  total_disconnections : ℕ
  total_failed_attempts : ℕ
deriving DecidableEq, Repr

/-- `wifi_calculate_backoff`: `1000 << retry_count` in `uint32_t`, clamped to
60 000 when larger. -/
def wifi_calculate_backoff (retry_count : ℕ) : ℕ :=
  let delay := (WIFI_RETRY_MIN_MS * 2 ^ retry_count) % U32_MOD
  if WIFI_RETRY_MAX_MS < delay then WIFI_RETRY_MAX_MS else delay

/-- Driver events dispatched to `wifi_event_handler`. -/
inductive wifi_event where
  | sta_start
  | sta_connected
  | sta_disconnected
  | got_ip
  | lost_ip
deriving DecidableEq, Repr

/-- Result of one `wifi_event_handler` invocation: the new context, whether
`esp_wifi_connect()` was called, and which of the user callbacks fired. -/
structure wifi_step_result where
  ctx : wifi_context_t
  connect_called : Bool
  cb_connected : Bool
  cb_disconnected : Bool
  cb_failed : Bool
deriving DecidableEq, Repr

/-- `wifi_event_handler` of `app_wifi.c` (`now_ms` is the millisecond clock
read on `WIFI_EVENT_STA_CONNECTED`). -/
def wifi_event_handler (ctx : wifi_context_t) (e : wifi_event) (now_ms : ℕ) :
    wifi_step_result :=
  match e with
  | .sta_start =>
    ⟨{ ctx with state := .WIFI_STATE_CONNECTING }, true, false, false, false⟩
  | .sta_connected =>
    ⟨{ ctx with state := .WIFI_STATE_CONNECTED,
                last_connected_time_ms := now_ms },
     false, false, false, false⟩
  | .sta_disconnected =>
    let ctx1 := { ctx with
      total_disconnections := ctx.total_disconnections + 1
      state := .WIFI_STATE_DISCONNECTED
      connected := false }
    if ctx1.retry_count < ctx1.max_retries then
      ⟨{ ctx1 with
           retry_delay_ms := wifi_calculate_backoff ctx1.retry_count
           retry_count := ctx1.retry_count + 1 },
       true, false, true, false⟩
    else
      ⟨{ ctx1 with
           total_failed_attempts := ctx1.total_failed_attempts + 1
           state := .WIFI_STATE_FAILED },
       false, false, true, true⟩
  | .got_ip =>
    ⟨{ ctx with
         retry_count := 0
         retry_delay_ms := WIFI_RETRY_MIN_MS
         total_connections := ctx.total_connections + 1
         connected := true },
     false, true, false, false⟩
  | .lost_ip =>
    ⟨{ ctx with connected := false }, false, false, false, false⟩

/-- The context right after `app_wifi_init` (a zero `max_retries` in the
config is replaced by the default `WIFI_MAX_RETRIES`). -/
def app_wifi_init_context (max_retries : ℕ) : wifi_context_t :=
  { state := .WIFI_STATE_STARTING
    connected := false
    retry_count := 0
    retry_delay_ms := WIFI_RETRY_MIN_MS
    max_retries := if max_retries = 0 then WIFI_MAX_RETRIES else max_retries
    last_connected_time_ms := 0
    total_connections := 0
    total_disconnections := 0
    total_failed_attempts := 0 }

/-- `n` consecutive `STA_DISCONNECTED` events (no intervening address
assignment). -/
def wifi_disconnects (ctx : wifi_context_t) : ℕ → wifi_context_t
  | 0 => ctx
  | n + 1 =>
    (wifi_event_handler (wifi_disconnects ctx n) .sta_disconnected 0).ctx

/-- Within the retry budget and the no-overflow range of the `uint32_t`
shift, the backoff is `min (1000·2^n) 60000`. -/
theorem wifi_calculate_backoff_eq_min (n : ℕ) (hn : n ≤ 21) :
    wifi_calculate_backoff n = min (WIFI_RETRY_MIN_MS * 2 ^ n) WIFI_RETRY_MAX_MS := by
  have hpow : 2 ^ n ≤ 2097152 := by
    calc 2 ^ n ≤ 2 ^ 21 := Nat.pow_le_pow_right (by norm_num) hn
      _ = 2097152 := by norm_num
  have hlt : WIFI_RETRY_MIN_MS * 2 ^ n < U32_MOD := by
    simp only [WIFI_RETRY_MIN_MS, U32_MOD]
    omega
  simp only [wifi_calculate_backoff, Nat.mod_eq_of_lt hlt]
  rcases le_or_lt (WIFI_RETRY_MIN_MS * 2 ^ n) WIFI_RETRY_MAX_MS with h | h
  · rw [if_neg (by omega), min_eq_left h]
  · rw [if_pos h, min_eq_right (le_of_lt h)]

/-- State reached by `k` consecutive disconnects from a context with
`retry_count = 0`, while the retry budget lasts. -/
theorem wifi_disconnects_state (ctx : wifi_context_t) (hrc : ctx.retry_count = 0) :
    ∀ k, k ≤ ctx.max_retries →
      (wifi_disconnects ctx k).retry_count = k ∧
      (wifi_disconnects ctx k).max_retries = ctx.max_retries ∧
      (1 ≤ k →
        (wifi_disconnects ctx k).retry_delay_ms = wifi_calculate_backoff (k - 1)) := by
  intro k
  induction k with
  | zero => exact fun _ => ⟨hrc, rfl, by omega⟩
  | succ n ih =>
    intro hle
    obtain ⟨h1, h2, -⟩ := ih (by omega)
    have hlt : n < ctx.max_retries := by omega
    refine ⟨?_, ?_, fun _ => ?_⟩ <;>
      simp [wifi_disconnects, wifi_event_handler, h1, h2, hlt]

/-- C3 counterexample: the first consecutive disconnect (N = 1) after a
fresh init schedules a 1000 ms reconnect delay, not the claimed
`min(1000·2^1, 60000) = 2000` ms (the code computes the backoff from
`retry_count` BEFORE incrementing it). -/
theorem wifi_first_disconnect_delay_is_1000 :
    (wifi_event_handler (app_wifi_init_context 0) .sta_disconnected 5000).ctx.retry_delay_ms
        = 1000 ∧
    min (1000 * 2 ^ 1) 60000 = 2000 ∧ (1000 : ℕ) ≠ 2000 := by
  decide

/-- C3 (amended): for every `N ≥ 1` within the retry budget, the Nth
consecutive disconnect schedules a reconnect delay of
`min(1000·2^(N−1), 60000)` ms; a successful address assignment (`GOT_IP`)
resets the retry count to 0 and the delay to 1000 ms, so the next
disconnect again schedules 1000 ms.  (Budget bounded by 22 so that the
`uint32_t` shift in `wifi_calculate_backoff` cannot wrap; the default
budget is 15.) -/
theorem wifi_nth_disconnect_backoff (ctx : wifi_context_t) (N : ℕ)
    (hrc : ctx.retry_count = 0) (h1 : 1 ≤ N) (hN : N ≤ ctx.max_retries)
    (hmax : ctx.max_retries ≤ 22) :
    (wifi_disconnects ctx N).retry_delay_ms
        = min (WIFI_RETRY_MIN_MS * 2 ^ (N - 1)) WIFI_RETRY_MAX_MS ∧
    (wifi_event_handler (wifi_disconnects ctx N) .got_ip 0).ctx.retry_count = 0 ∧
    (wifi_event_handler (wifi_disconnects ctx N) .got_ip 0).ctx.retry_delay_ms
        = WIFI_RETRY_MIN_MS ∧
    (wifi_event_handler
        (wifi_event_handler (wifi_disconnects ctx N) .got_ip 0).ctx
        .sta_disconnected 0).ctx.retry_delay_ms = WIFI_RETRY_MIN_MS := by
  obtain ⟨h1', h2', h3'⟩ := wifi_disconnects_state ctx hrc N hN
  have hdelay := h3' h1
  have hmaxN : N - 1 ≤ 21 := by omega
  have hback := wifi_calculate_backoff_eq_min (N - 1) hmaxN
  refine ⟨by rw [hdelay, hback], ?_, ?_, ?_⟩
  · simp [wifi_event_handler]
  · simp [wifi_event_handler]
  · have hmax0 : 0 < ctx.max_retries := by omega
    simp [wifi_event_handler, h2', hmax0, wifi_calculate_backoff,
      WIFI_RETRY_MIN_MS, WIFI_RETRY_MAX_MS, U32_MOD]

/-- C3 witness: third consecutive disconnect with the default budget. -/
theorem wifi_nth_disconnect_backoff_witness :
    (wifi_disconnects (app_wifi_init_context 0) 3).retry_delay_ms
        = min (WIFI_RETRY_MIN_MS * 2 ^ (3 - 1)) WIFI_RETRY_MAX_MS ∧
    (wifi_event_handler (wifi_disconnects (app_wifi_init_context 0) 3) .got_ip 0).ctx.retry_count = 0 ∧
    (wifi_event_handler (wifi_disconnects (app_wifi_init_context 0) 3) .got_ip 0).ctx.retry_delay_ms
        = WIFI_RETRY_MIN_MS ∧
    (wifi_event_handler
        (wifi_event_handler (wifi_disconnects (app_wifi_init_context 0) 3) .got_ip 0).ctx
        .sta_disconnected 0).ctx.retry_delay_ms = WIFI_RETRY_MIN_MS :=
  wifi_nth_disconnect_backoff (app_wifi_init_context 0) 3
    (by decide) (by decide) (by decide) (by decide)

/-- Closed-loop state of the WiFi manager together with the driver-side
bookkeeping that governs which events the ESP driver can deliver:
`start_delivered` — the single `STA_START` (consequence of the one
`esp_wifi_start()` in `app_wifi_init`) has been delivered; `pending` — an
`esp_wifi_connect()` attempt is in flight; `link` — the association is
established (`STA_CONNECTED` seen, no disconnect since). -/
structure wifi_world where
  ctx : wifi_context_t
  start_delivered : Bool
  pending : Bool
  link : Bool
deriving DecidableEq, Repr

/-- Driver contract: which events can be delivered in a given world.
`STA_START` fires once; `STA_CONNECTED` only answers an in-flight connect
attempt; `STA_DISCONNECTED` reports a failed attempt or the loss of an
established link; IP events require an established link. -/
def wifi_admissible (w : wifi_world) (e : wifi_event) : Bool :=
  match e with
  | .sta_start => !w.start_delivered
  | .sta_connected => w.pending
  | .sta_disconnected => w.pending || w.link
  | .got_ip => w.link
  | .lost_ip => w.link

/-- One closed-loop step: run the handler, then update the driver-side
bookkeeping (`esp_wifi_connect()` calls open a new in-flight attempt).
Returns the new world, whether `esp_wifi_connect()` was called, and whether
the terminal failure callback fired. -/
def wifi_world_step (w : wifi_world) (e : wifi_event) (now_ms : ℕ) :
    wifi_world × Bool × Bool :=
  let r := wifi_event_handler w.ctx e now_ms
  (⟨r.ctx,
    w.start_delivered || (e == .sta_start),
    (match e with
     | .sta_start => true
     | .sta_connected => false
     | .sta_disconnected => r.connect_called
     | .got_ip => w.pending
     | .lost_ip => w.pending),
    (match e with
     | .sta_connected => true
     | .sta_disconnected => false
     | _ => w.link)⟩,
   r.connect_called, r.cb_failed)

/-- Run a sequence of driver events; `none` when some event violates the
driver contract.  The second component counts firings of the terminal
failure callback (`on_connect_failed`). -/
def wifi_run (w : wifi_world) : List (wifi_event × ℕ) → Option (wifi_world × ℕ)
  | [] => some (w, 0)
  | (e, t) :: rest =>
    if wifi_admissible w e then
      let s := wifi_world_step w e t
      match wifi_run s.1 rest with
      | some (wf, fc) => some (wf, (if s.2.2 then 1 else 0) + fc)
      | none => none
    else none

/-- The world right after `app_wifi_init`. -/
def wifi_world_init (max_retries : ℕ) : wifi_world :=
  ⟨app_wifi_init_context max_retries, false, false, false⟩

/-- Invariant of reachable worlds: in `FAILED` no attempt is in flight, no
link is up, and the unique `STA_START` is already spent; any in-flight
attempt or link presupposes the start event. -/
def wifi_world_inv (w : wifi_world) : Prop :=
  (w.ctx.state = .WIFI_STATE_FAILED →
    w.start_delivered = true ∧ w.pending = false ∧ w.link = false) ∧
  ((w.pending = true ∨ w.link = true) → w.start_delivered = true)

/-- Under the invariant, a `FAILED` world admits no further driver event. -/
theorem wifi_failed_admits_no_event (w : wifi_world) (hinv : wifi_world_inv w)
    (hf : w.ctx.state = .WIFI_STATE_FAILED) (e : wifi_event) :
    wifi_admissible w e = false := by
  obtain ⟨hstart, hpend, hlink⟩ := hinv.1 hf
  cases e <;> simp [wifi_admissible, hstart, hpend, hlink]

/-- One admissible step preserves the invariant; it fires the failure
callback exactly when it moves a non-`FAILED` world into `FAILED`; and a
non-`FAILED` world stays non-`FAILED` unless the callback fired. -/
theorem wifi_world_step_inv (w : wifi_world) (e : wifi_event) (t : ℕ)
    (hadm : wifi_admissible w e = true) (hinv : wifi_world_inv w)
    (hnf : w.ctx.state ≠ .WIFI_STATE_FAILED) :
    wifi_world_inv (wifi_world_step w e t).1 ∧
    ((wifi_world_step w e t).2.2 = true ↔
      (wifi_world_step w e t).1.ctx.state = .WIFI_STATE_FAILED) := by
  cases e with
  | sta_start =>
    constructor
    · constructor
      · intro h
        simp [wifi_world_step, wifi_event_handler] at h
      · intro h
        simp [wifi_world_step, wifi_event_handler]
    · simp [wifi_world_step, wifi_event_handler]
  | sta_connected =>
    have hstart : w.start_delivered = true := by
      simp [wifi_admissible] at hadm
      exact hinv.2 (Or.inl hadm)
    constructor
    · constructor
      · intro h
        simp [wifi_world_step, wifi_event_handler] at h
      · intro h
        simp [wifi_world_step, wifi_event_handler, hstart]
    · simp [wifi_world_step, wifi_event_handler]
  | sta_disconnected =>
    have hstart : w.start_delivered = true := by
      simp [wifi_admissible] at hadm
      rcases hadm with h | h
      · exact hinv.2 (Or.inl h)
      · exact hinv.2 (Or.inr h)
    by_cases hretry : w.ctx.retry_count < w.ctx.max_retries
    · constructor
      · constructor
        · intro h
          simp [wifi_world_step, wifi_event_handler, hretry] at h
        · intro h
          simp [wifi_world_step, wifi_event_handler, hstart]
      · simp [wifi_world_step, wifi_event_handler, hretry]
    · constructor
      · constructor
        · intro h
          simp [wifi_world_step, wifi_event_handler, hretry, hstart]
        · intro h
          simp [wifi_world_step, wifi_event_handler, hstart]
      · simp [wifi_world_step, wifi_event_handler, hretry]
  | got_ip =>
    have hstart : w.start_delivered = true := by
      simp [wifi_admissible] at hadm
      exact hinv.2 (Or.inr hadm)
    constructor
    · constructor
      · intro h
        simp [wifi_world_step, wifi_event_handler] at h
        exact absurd h hnf
      · intro h
        simp [wifi_world_step, wifi_event_handler, hstart]
    · simp only [wifi_world_step, wifi_event_handler]
      constructor
      · intro h
        simp at h
      · intro h
        simp at h
        exact absurd h hnf
  | lost_ip =>
    have hstart : w.start_delivered = true := by
      simp [wifi_admissible] at hadm
      exact hinv.2 (Or.inr hadm)
    constructor
    · constructor
      · intro h
        simp [wifi_world_step, wifi_event_handler] at h
        exact absurd h hnf
      · intro h
        simp [wifi_world_step, wifi_event_handler, hstart]
    · simp only [wifi_world_step, wifi_event_handler]
      constructor
      · intro h
        simp at h
      · intro h
        simp at h
        exact absurd h hnf

/-- Over any admissible run from an invariant-satisfying, non-`FAILED`
world, the failure-callback count is `1` when the final state is `FAILED`
and `0` otherwise, and the final world satisfies the invariant. -/
theorem wifi_run_fail_count (evs : List (wifi_event × ℕ)) :
    ∀ w wf fc, wifi_run w evs = some (wf, fc) → wifi_world_inv w →
      w.ctx.state ≠ .WIFI_STATE_FAILED →
      (fc = if wf.ctx.state = .WIFI_STATE_FAILED then 1 else 0) ∧
      wifi_world_inv wf := by
  induction evs with
  | nil =>
    intro w wf fc hrun hinv hnf
    simp [wifi_run] at hrun
    obtain ⟨hw, hfc⟩ := hrun
    subst hw
    rw [if_neg hnf] at *
    exact ⟨hfc.symm, hinv⟩
  | cons et rest ih =>
    intro w wf fc hrun hinv hnf
    obtain ⟨e, t⟩ := et
    simp only [wifi_run] at hrun
    by_cases hadm : wifi_admissible w e = true
    · rw [if_pos hadm] at hrun
      obtain ⟨hinv', hiff⟩ := wifi_world_step_inv w e t hadm hinv hnf
      rcases hrec : wifi_run (wifi_world_step w e t).1 rest with - | p
      · rw [hrec] at hrun
        simp at hrun
      · obtain ⟨w', fc'⟩ := p
        rw [hrec] at hrun
        simp at hrun
        obtain ⟨hw', hfc⟩ := hrun
        subst hw'
        by_cases hf : (wifi_world_step w e t).1.ctx.state = .WIFI_STATE_FAILED
        · have hb : (wifi_world_step w e t).2.2 = true := hiff.mpr hf
          have hempty : rest = [] ∧ w' = (wifi_world_step w e t).1 ∧ fc' = 0 := by
            cases rest with
            | nil =>
              simp [wifi_run] at hrec
              exact ⟨rfl, hrec.1.symm, hrec.2.symm⟩
            | cons et2 rest2 =>
              obtain ⟨e2, t2⟩ := et2
              simp only [wifi_run] at hrec
              rw [wifi_failed_admits_no_event _ hinv' hf e2] at hrec
              simp at hrec
          obtain ⟨-, hw2, hfc'⟩ := hempty
          subst hw2
          rw [if_pos hf]
          rw [hb] at hfc
          simp at hfc
          exact ⟨by omega, hinv'⟩
        · have hb : (wifi_world_step w e t).2.2 = false := by
            rcases hb2 : (wifi_world_step w e t).2.2 with - | -
            · rfl
            · exact absurd (hiff.mp hb2) hf
          obtain ⟨hfc2, hinvf⟩ := ih _ _ _ hrec hinv' hf
          rw [hb] at hfc
          simp at hfc
          exact ⟨by omega, hinvf⟩
    · rw [if_neg hadm] at hrun
      simp at hrun

/-- C4: for every driver-admissible event sequence from a fresh
`app_wifi_init`, (a) the terminal failure callback fires at most once over
the whole run, and exactly once iff the final state is `FAILED`; (b) once
in `FAILED` no further driver event is admissible, so no reconnect is ever
attempted again; (c) a disconnect that arrives once `retry_count` has
reached the `max_retries` budget moves the manager to `FAILED`. -/
theorem wifi_failed_terminal_and_callback_once (max_retries : ℕ)
    (evs : List (wifi_event × ℕ)) (wf : wifi_world) (fc : ℕ)
    (hrun : wifi_run (wifi_world_init max_retries) evs = some (wf, fc)) :
    fc ≤ 1 ∧
    (fc = if wf.ctx.state = .WIFI_STATE_FAILED then 1 else 0) ∧
    (wf.ctx.state = .WIFI_STATE_FAILED →
      ∀ e, wifi_admissible wf e = false) ∧
    (∀ t, wf.ctx.max_retries ≤ wf.ctx.retry_count →
      (wifi_event_handler wf.ctx .sta_disconnected t).ctx.state
        = .WIFI_STATE_FAILED) := by
  have hinv0 : wifi_world_inv (wifi_world_init max_retries) := by
    constructor
    · intro h
      simp [wifi_world_init, app_wifi_init_context] at h
    · intro h
      simp [wifi_world_init] at h
  have hnf0 : (wifi_world_init max_retries).ctx.state ≠ .WIFI_STATE_FAILED := by
    simp [wifi_world_init, app_wifi_init_context]
  obtain ⟨hfc, hinvf⟩ := wifi_run_fail_count evs _ wf fc hrun hinv0 hnf0
  refine ⟨?_, hfc, ?_, ?_⟩
  · rw [hfc]
    split <;> omega
  · intro hf e
    exact wifi_failed_admits_no_event wf hinvf hf e
  · intro t hge
    have hnot : ¬ wf.ctx.retry_count < wf.ctx.max_retries := by omega
    simp [wifi_event_handler, hnot]

/-- Concrete driver trace: start, then four failed connect attempts against
a budget of three retries. -/
def wifi_demo_events : List (wifi_event × ℕ) :=
  [(.sta_start, 0), (.sta_disconnected, 1), (.sta_disconnected, 2),
   (.sta_disconnected, 3), (.sta_disconnected, 4)]

/-- C4 witness: with `max_retries = 3`, three retries are consumed, the
fourth failed attempt yields `FAILED` with the callback fired once, and no
further disconnect event is admissible. -/
theorem wifi_failed_terminal_and_callback_once_witness :
    (1 : ℕ) ≤ 1 ∧
    wifi_admissible
      ⟨⟨.WIFI_STATE_FAILED, false, 3, 4000, 3, 0, 0, 4, 1⟩, true, false, false⟩
      .sta_disconnected = false :=
  ⟨(wifi_failed_terminal_and_callback_once 3 wifi_demo_events
      ⟨⟨.WIFI_STATE_FAILED, false, 3, 4000, 3, 0, 0, 4, 1⟩, true, false, false⟩
      1 (by decide)).1,
   (wifi_failed_terminal_and_callback_once 3 wifi_demo_events
      ⟨⟨.WIFI_STATE_FAILED, false, 3, 4000, 3, 0, 0, 4, 1⟩, true, false, false⟩
      1 (by decide)).2.2.1 rfl .sta_disconnected⟩

/-! ## MQTT connection manager (`app_mqtt.c`) -/

/-- The fields of `mqtt_context_t` touched by the connection-state logic. -/
structure mqtt_context_t where
  connected : Bool
  messages_published : ℕ
  messages_received : ℕ
  publish_failures : ℕ
  reconnect_count : ℕ
  last_connect_time : ℕ
  reconnect_delay_ms : ℕ
deriving DecidableEq, Repr

/-- Broker session events handled by `mqtt_event_handler` (connection
state ones; `now_ms` is the clock read on `MQTT_EVENT_CONNECTED`). -/
inductive mqtt_event where
  | connected (now_ms : ℕ)
  | disconnected
deriving DecidableEq, Repr

/-- `mqtt_event_handler` of `app_mqtt.c`, connection-state cases.
On connect: reset backoff to 1000 ms and record the connect time.  On
disconnect: bump the reconnect counter and double the delay — but only
when the current delay is still below 60 000 (`uint32_t` multiply). -/
def mqtt_event_handler (ctx : mqtt_context_t) (e : mqtt_event) : mqtt_context_t :=
  match e with
  | .connected now_ms =>
    { ctx with
        connected := true
        reconnect_delay_ms := 1000
        last_connect_time := now_ms }
  | .disconnected =>
    let ctx1 := { ctx with
      connected := false
      reconnect_count := ctx.reconnect_count + 1 }
    if ctx1.reconnect_delay_ms < 60000 then
      { ctx1 with reconnect_delay_ms := (ctx1.reconnect_delay_ms * 2) % U32_MOD }
    else ctx1

/-- The context right after `app_mqtt_init` (initial backoff 1000 ms). -/
def app_mqtt_init_context : mqtt_context_t :=
  { connected := false
    messages_published := 0
    messages_received := 0
    publish_failures := 0
    reconnect_count := 0
    last_connect_time := 0
    reconnect_delay_ms := 1000 }

/-- Fold a sequence of broker events through the handler. -/
def mqtt_run (ctx : mqtt_context_t) (evs : List mqtt_event) : mqtt_context_t :=
  evs.foldl mqtt_event_handler ctx

/-- C1: the MQTT reconnect delay starts at 1000 ms and resets to 1000 ms on
every connect, but it does NOT respect the 60 000 ms cap: because the code
doubles whenever the current delay is below 60 000 instead of clamping the
doubled value, six consecutive disconnects after a connect drive the delay
to 64 000 ms > 60 000 ms (where it then sticks), contradicting the claim
and the code's own "max 60 seconds" comment. -/
theorem mqtt_backoff_exceeds_cap :
    app_mqtt_init_context.reconnect_delay_ms = 1000 ∧
    (mqtt_event_handler app_mqtt_init_context (.connected 100)).reconnect_delay_ms
        = 1000 ∧
    (mqtt_run app_mqtt_init_context
        [.connected 100, .disconnected, .disconnected, .disconnected,
         .disconnected, .disconnected, .disconnected]).reconnect_delay_ms
        = 64000 ∧
    60000 < 64000 ∧
    (mqtt_run app_mqtt_init_context
        [.connected 100, .disconnected, .disconnected, .disconnected,
         .disconnected, .disconnected, .disconnected,
         .disconnected]).reconnect_delay_ms = 64000 := by
  decide

/-! ## Task orchestration (`system_task.c`) -/

/-- `system_state_t` of `app_common.h`. -/
inductive system_state_t where
  | SYSTEM_STATE_INIT
  | SYSTEM_STATE_HARDWARE_READY
  | SYSTEM_STATE_WIFI_CONNECTING
  | SYSTEM_STATE_WIFI_CONNECTED
  | SYSTEM_STATE_MQTT_CONNECTING
  | SYSTEM_STATE_MQTT_CONNECTED
  | SYSTEM_STATE_OPERATIONAL
  | SYSTEM_STATE_ERROR
deriving DecidableEq, Repr

/-- `system_status_t` of `app_common.h` (the shared status record). -/
structure system_status_t where
  state : system_state_t
  last_error : app_err_t
  error_count : ℕ
  wifi_reconnect_count : ℕ
  mqtt_reconnect_count : ℕ
  sensor_read_count : ℕ
  sensor_error_count : ℕ
  uptime_ms : ℕ
deriving DecidableEq, Repr

/-- The zero-initialised status (`memset(..., 0, ...)` then `state = INIT`). -/
def system_status_zero : system_status_t :=
  { state := .SYSTEM_STATE_INIT
    last_error := .APP_OK
    error_count := 0
    wifi_reconnect_count := 0
    mqtt_reconnect_count := 0
    sensor_read_count := 0
    sensor_error_count := 0
    uptime_ms := 0 }

/-- `system_status_record_error`. -/
def system_status_record_error (st : system_status_t) (e : app_err_t) :
    system_status_t :=
  { st with last_error := e, error_count := st.error_count + 1 }

/-- `system_status_increment_sensor_reads`. -/
def system_status_increment_sensor_reads (st : system_status_t) :
    system_status_t :=
  { st with sensor_read_count := st.sensor_read_count + 1 }

/-- `system_status_increment_sensor_errors`. -/
def system_status_increment_sensor_errors (st : system_status_t) :
    system_status_t :=
  { st with sensor_error_count := st.sensor_error_count + 1 }

/-- A FreeRTOS queue: FIFO list of items plus the configured capacity. -/
structure bounded_queue (α : Type) where
  items : List α
  capacity : ℕ
deriving DecidableEq, Repr

/-- `xQueueSend(q, x, 0)`: appends when there is room (`pdTRUE`), returns
immediately with `pdFALSE` and an unchanged queue when full (the caller's
item — the newest — is dropped; a zero timeout never blocks). -/
def xQueueSend {α : Type} (q : bounded_queue α) (x : α) :
    bounded_queue α × Bool :=
  if q.items.length < q.capacity then
    ({ q with items := q.items ++ [x] }, true)
  else (q, false)

/-- `sensor_message_t` of `system_task.c`. -/
structure sensor_message_t where
  data : sensor_data_t
  sequence : ℕ
deriving DecidableEq, Repr

/-- `mqtt_command_t` of `app_mqtt.c` (type string truncated to 31 chars by
`strncpy`). -/
structure mqtt_command_t where
  type : String
  value : ℤ
deriving DecidableEq, Repr

/-- The sensor queue created by `system_task_init`: capacity 5. -/
def g_sensor_queue_init : bounded_queue sensor_message_t := ⟨[], 5⟩

/-- The MQTT command queue created by `app_mqtt_init`: capacity 10. -/
def g_mqtt_command_queue_init : bounded_queue mqtt_command_t := ⟨[], 10⟩

/-- State carried across iterations of the sensor task loop. -/
structure sensor_task_state where
  status : system_status_t
  queue : bounded_queue sensor_message_t
  read_sequence : ℕ
deriving DecidableEq, Repr

/-- One iteration of `task_sensor_read` after `sensor_dht_read` returned
(`ret`, `reading`): on a valid success, bump the read counter and enqueue
the sequenced reading with a zero timeout (on a full queue the new reading
is dropped and only a warning is logged); otherwise bump the error
counter. -/
def task_sensor_read_step (s : sensor_task_state) (ret : app_err_t)
    (reading : sensor_data_t) : sensor_task_state :=
  if ret = .APP_OK ∧ reading.is_valid = true then
    let st1 := system_status_increment_sensor_reads s.status
    let msg : sensor_message_t := ⟨reading, s.read_sequence⟩
    ⟨st1, (xQueueSend s.queue msg).1, s.read_sequence + 1⟩
  else
    ⟨system_status_increment_sensor_errors s.status, s.queue, s.read_sequence⟩

/-- `mqtt_parse_and_queue_command`: `parsed` is the result of the cJSON
parse — `some (type, value)` when the payload is an object with a string
`type` and a numeric `value`, `none` otherwise (malformed payloads are
dropped).  A well-formed command is sent with a zero timeout; when the
queue is full it is silently dropped (warning log only). -/
def mqtt_parse_and_queue_command (q : bounded_queue mqtt_command_t)
    (parsed : Option (String × ℤ)) : bounded_queue mqtt_command_t :=
  match parsed with
  | none => q
  | some (ty, v) => (xQueueSend q ⟨ty.take 31, v⟩).1

/-- `n` iterations of the sensor task loop, each with a valid successful
reading. -/
def sensor_task_run (s : sensor_task_state) (reading : sensor_data_t) :
    ℕ → sensor_task_state
  | 0 => s
  | n + 1 => task_sensor_read_step (sensor_task_run s reading n) .APP_OK reading

/-- A concrete valid reading used in the queue scenarios. -/
def sensor_demo_reading : sensor_data_t :=
  { temperature := 25, humidity := 60, timestamp_ms := 1000,
    is_valid := true, last_error := .APP_OK }

/-- C7 counterexample: there is no drop counter.  Enqueueing the 6th valid
reading onto the full capacity-5 sensor queue drops the new item and leaves
the queue unchanged, but the entire `SystemStatus` after six iterations is
the zero status with `sensor_read_count = 6` — no field records the drop
(`error_count` and `sensor_error_count` stay 0).  Likewise an 11th command
on the full capacity-10 MQTT command queue is dropped with no counter
anywhere (the function touches no other state). -/
theorem queue_overflow_increments_no_counter :
    (sensor_task_run ⟨system_status_zero, g_sensor_queue_init, 0⟩
        sensor_demo_reading 6).queue
      = (sensor_task_run ⟨system_status_zero, g_sensor_queue_init, 0⟩
          sensor_demo_reading 5).queue ∧
    (sensor_task_run ⟨system_status_zero, g_sensor_queue_init, 0⟩
        sensor_demo_reading 5).queue.items.length = 5 ∧
    (sensor_task_run ⟨system_status_zero, g_sensor_queue_init, 0⟩
        sensor_demo_reading 6).status
      = { system_status_zero with sensor_read_count := 6 } ∧
    mqtt_parse_and_queue_command
        ⟨List.replicate 10 ⟨"relay", 1⟩, 10⟩ (some ("fan", 3))
      = ⟨List.replicate 10 ⟨"relay", 1⟩, 10⟩ := by
  decide

/-- C7 (amended): a send onto a full queue never blocks the producer — it
returns at once, dropping the newest item and leaving the queue unchanged —
and only a warning is logged: no counter of any kind is incremented (on the
sensor path the status changes exactly by the read-count bump that happens
before the send; the MQTT path touches nothing).  The queue length never
exceeds the configured capacity. -/
theorem queue_drop_newest_and_bounded (s : sensor_task_state)
    (reading : sensor_data_t) (ret : app_err_t)
    (q : bounded_queue mqtt_command_t) (parsed : Option (String × ℤ))
    (hs : s.queue.items.length ≤ s.queue.capacity)
    (hq : q.items.length ≤ q.capacity) :
    ((task_sensor_read_step s ret reading).queue.items.length
        ≤ s.queue.capacity) ∧
    ((task_sensor_read_step s ret reading).queue.capacity = s.queue.capacity) ∧
    (ret = .APP_OK → reading.is_valid = true →
      s.queue.items.length = s.queue.capacity →
      (task_sensor_read_step s ret reading).queue = s.queue ∧
      (task_sensor_read_step s ret reading).status
        = system_status_increment_sensor_reads s.status) ∧
    ((mqtt_parse_and_queue_command q parsed).items.length ≤ q.capacity) ∧
    ((mqtt_parse_and_queue_command q parsed).capacity = q.capacity) ∧
    (q.items.length = q.capacity → mqtt_parse_and_queue_command q parsed = q) := by
  have hsend : ∀ (α : Type) (qq : bounded_queue α) (x : α),
      qq.items.length ≤ qq.capacity →
      ((xQueueSend qq x).1.items.length ≤ qq.capacity ∧
       (xQueueSend qq x).1.capacity = qq.capacity ∧
       (qq.items.length = qq.capacity → (xQueueSend qq x).1 = qq)) := by
    intro α qq x hlen
    by_cases hfull : qq.items.length < qq.capacity
    · refine ⟨?_, ?_, ?_⟩ <;> simp [xQueueSend, hfull]
      · omega
      · intro h
        omega
    · refine ⟨?_, ?_, ?_⟩ <;> simp [xQueueSend, hfull]
      exact hlen
  refine ⟨?_, ?_, ?_, ?_, ?_, ?_⟩
  · by_cases hok : ret = .APP_OK ∧ reading.is_valid = true
    · simp only [task_sensor_read_step, if_pos hok]
      exact (hsend _ s.queue ⟨reading, s.read_sequence⟩ hs).1
    · simp only [task_sensor_read_step, if_neg hok]
      exact hs
  · by_cases hok : ret = .APP_OK ∧ reading.is_valid = true
    · simp only [task_sensor_read_step, if_pos hok]
      exact (hsend _ s.queue ⟨reading, s.read_sequence⟩ hs).2.1
    · simp only [task_sensor_read_step, if_neg hok]
  · intro h1 h2 hfull
    have hok : ret = .APP_OK ∧ reading.is_valid = true := ⟨h1, h2⟩
    simp only [task_sensor_read_step, if_pos hok]
    exact ⟨(hsend _ s.queue ⟨reading, s.read_sequence⟩ hs).2.2 hfull, trivial⟩
  · cases parsed with
    | none => exact hq
    | some p =>
      exact (hsend _ q ⟨p.1.take 31, p.2⟩ hq).1
  · cases parsed with
    | none => rfl
    | some p =>
      exact (hsend _ q ⟨p.1.take 31, p.2⟩ hq).2.1
  · intro hfull
    cases parsed with
    | none => rfl
    | some p =>
      exact (hsend _ q ⟨p.1.take 31, p.2⟩ hq).2.2 hfull

/-- C7 witness: the concrete full queues of the counterexample scenario. -/
theorem queue_drop_newest_and_bounded_witness :
    ((task_sensor_read_step
        ⟨{ system_status_zero with sensor_read_count := 5 },
         ⟨List.replicate 5 ⟨sensor_demo_reading, 0⟩, 5⟩, 5⟩
        .APP_OK sensor_demo_reading).queue.items.length ≤ 5) ∧
    ((task_sensor_read_step
        ⟨{ system_status_zero with sensor_read_count := 5 },
         ⟨List.replicate 5 ⟨sensor_demo_reading, 0⟩, 5⟩, 5⟩
        .APP_OK sensor_demo_reading).queue.capacity = 5) ∧
    ((task_sensor_read_step
        ⟨{ system_status_zero with sensor_read_count := 5 },
         ⟨List.replicate 5 ⟨sensor_demo_reading, 0⟩, 5⟩, 5⟩
        .APP_OK sensor_demo_reading).queue
      = ⟨List.replicate 5 ⟨sensor_demo_reading, 0⟩, 5⟩ ∧
     (task_sensor_read_step
        ⟨{ system_status_zero with sensor_read_count := 5 },
         ⟨List.replicate 5 ⟨sensor_demo_reading, 0⟩, 5⟩, 5⟩
        .APP_OK sensor_demo_reading).status
      = system_status_increment_sensor_reads
          { system_status_zero with sensor_read_count := 5 }) ∧
    ((mqtt_parse_and_queue_command ⟨List.replicate 10 ⟨"relay", 1⟩, 10⟩
        (some ("fan", 3))).items.length ≤ 10) ∧
    ((mqtt_parse_and_queue_command ⟨List.replicate 10 ⟨"relay", 1⟩, 10⟩
        (some ("fan", 3))).capacity = 10) ∧
    (mqtt_parse_and_queue_command ⟨List.replicate 10 ⟨"relay", 1⟩, 10⟩
        (some ("fan", 3)) = ⟨List.replicate 10 ⟨"relay", 1⟩, 10⟩) := by
  have h := queue_drop_newest_and_bounded
    ⟨{ system_status_zero with sensor_read_count := 5 },
     ⟨List.replicate 5 ⟨sensor_demo_reading, 0⟩, 5⟩, 5⟩
    sensor_demo_reading .APP_OK
    ⟨List.replicate 10 ⟨"relay", 1⟩, 10⟩ (some ("fan", 3))
    (by decide) (by decide)
  exact ⟨h.1, h.2.1, h.2.2.1 rfl rfl (by decide), h.2.2.2.1, h.2.2.2.2.1,
    h.2.2.2.2.2 (by decide)⟩

/-- A synchronous call into the OutputDriver (`app_output.c`), with the
exact argument passed. -/
inductive output_call where
  | set_relay (v : ℤ)
  | set_fan_speed (v : ℤ)
deriving DecidableEq, Repr

/-- Result of processing one received command in `task_mqtt_receive`: the
updated shared status and the list of OutputDriver calls made. -/
structure mqtt_rx_step_result where
  status : system_status_t
  calls : List output_call
deriving DecidableEq, Repr

/-- The body of `task_mqtt_receive` for one command received from
`app_mqtt_receive_command` (`cmd.type`, `cmd.value` with C `int` values on
`ℤ`).  `driver` gives the return code of the corresponding OutputDriver
call (environment).  Relay values outside {0,1} and fan values outside
[0,255] are rejected with `APP_ERR_INVALID_VALUE` and no driver call;
unknown types are rejected with `APP_ERR_INVALID_PARAM`; any non-`APP_OK`
outcome is recorded via `system_status_record_error`. -/
def task_mqtt_receive_step (st : system_status_t) (cmd_type : String)
    (value : ℤ) (driver : output_call → app_err_t) : mqtt_rx_step_result :=
  let rc :=
    if cmd_type = "relay" then
      if value < 0 ∨ 1 < value then (app_err_t.APP_ERR_INVALID_VALUE, ([] : List output_call))
      else (driver (.set_relay value), [output_call.set_relay value])
    else if cmd_type = "fan" then
      if value < 0 ∨ 255 < value then (app_err_t.APP_ERR_INVALID_VALUE, ([] : List output_call))
      else (driver (.set_fan_speed value), [output_call.set_fan_speed value])
    else (app_err_t.APP_ERR_INVALID_PARAM, ([] : List output_call))
  { status := if rc.1 ≠ .APP_OK then system_status_record_error st rc.1 else st
    calls := rc.2 }

/-- C5: the command consumer rejects a relay command with value outside
{0,1} and a fan command with value outside [0,255] — recording
`APP_ERR_INVALID_VALUE` in the shared status (error counter bumped) and
making no OutputDriver call — while an in-range command results in exactly
one corresponding OutputDriver call carrying the exact, unclamped value. -/
theorem command_consumer_validates_range (st : system_status_t) (v : ℤ)
    (driver : output_call → app_err_t) :
    ((v < 0 ∨ 1 < v) →
      task_mqtt_receive_step st "relay" v driver
        = ⟨system_status_record_error st .APP_ERR_INVALID_VALUE, []⟩) ∧
    (0 ≤ v → v ≤ 1 →
      (task_mqtt_receive_step st "relay" v driver).calls
        = [output_call.set_relay v]) ∧
    ((v < 0 ∨ 255 < v) →
      task_mqtt_receive_step st "fan" v driver
        = ⟨system_status_record_error st .APP_ERR_INVALID_VALUE, []⟩) ∧
    (0 ≤ v → v ≤ 255 →
      (task_mqtt_receive_step st "fan" v driver).calls
        = [output_call.set_fan_speed v]) := by
  refine ⟨?_, ?_, ?_, ?_⟩
  · intro h
    simp [task_mqtt_receive_step, h]
  · intro h0 h1
    have hn : ¬ (v < 0 ∨ 1 < v) := by omega
    simp [task_mqtt_receive_step, hn]
  · intro h
    simp [task_mqtt_receive_step, h]
  · intro h0 h1
    have hn : ¬ (v < 0 ∨ 255 < v) := by omega
    simp [task_mqtt_receive_step, hn]

/-- C5 witness: `{"type":"relay","value":2}` is rejected without reaching
the driver and bumps the error counter; `{"type":"relay","value":1}` yields
exactly one `set_relay(1)` call. -/
theorem command_consumer_validates_range_witness :
    task_mqtt_receive_step system_status_zero "relay" 2 (fun _ => .APP_OK)
        = ⟨system_status_record_error system_status_zero .APP_ERR_INVALID_VALUE,
           []⟩ ∧
    (task_mqtt_receive_step system_status_zero "relay" 1 (fun _ => .APP_OK)).calls
        = [output_call.set_relay 1] :=
  ⟨(command_consumer_validates_range system_status_zero 2 (fun _ => .APP_OK)).1
      (by decide),
   (command_consumer_validates_range system_status_zero 1 (fun _ => .APP_OK)).2.1
      (by decide) (by decide)⟩

end HumidTemp
